import Mathlib

/-!
Shallow embedding of the lecture-processing pipeline of the
classroom-assistant backend.

The repository contains three copies of the pipeline:

* `services/background_processor.py` — `BackgroundProcessor._process_lecture`
  (used by the periodic loop `_process_unprocessed_lectures` and by
  `process_lecture_immediately`);
* `routes/lectures.py` — `process_lecture` (route `/<lecture_id>/process`);
* `routes/ai.py` — `process_lecture` (route `/process-lecture/<lecture_id>`).

External AI/storage providers (speech-to-text, Gemini) are modelled as pure
functions bundled in a `Providers` record; the database session is modelled
as an explicit `DBState` value, and a commit is the construction of the new
`DBState`.  Python falsiness of an optional string (`None` or `""`) is
`strTruthy = false`.  Provider invocations are recorded in a `StageCall`
trace so that statements such as "no provider call is made" are expressible.
-/

namespace ClassroomAssistant

/-- Enumeration `TaskPriority` of `models.py` (values "high", "medium", "low"). -/
inductive TaskPriority where
  | high
  | medium
  | low
deriving DecidableEq, Repr

/-- Construction `TaskPriority(s)` of Python's `enum`: looks the string up among
the enum values and fails (raises `ValueError`) on any other string.  No
lower-casing happens here. -/
def TaskPriority.ofString : String → Option TaskPriority
  | "high" => some .high
  | "medium" => some .medium
  | "low" => some .low
  | _ => none

/-- Row of the `users` table; only the fields the pipeline reads.  The `role`
column is compared against the literal string "student" in the fan-out query. -/
structure User where
  id : String
  role : String
deriving DecidableEq, Repr

/-- Row of the `lectures` table; only the fields the pipeline reads or writes.
`isProcessed` is the boolean `is_processed` column (the spec's
`processingState`: `false` = Unprocessed, `true` = Processed); timestamps are
abstract naturals. -/
structure Lecture where
  id : String
  title : String
  audioUrl : Option String
  transcript : Option String
  summary : Option String
  keyPoints : Option String
  isProcessed : Bool
  createdAt : Nat
  updatedAt : Nat
deriving DecidableEq, Repr

/-- Value stored in the `due_date` column of a created task.  The background
processor stores the descriptor's raw string unparsed (`raw`), while the AI
route parses it to a datetime (`date`) or drops it to SQL NULL (`null`). -/
inductive DueDate where
  | null
  | date (t : Nat)
  | raw (s : String)
deriving DecidableEq, Repr

/-- Row of the `tasks` table as created by the pipelines. -/
structure Task where
  title : String
  description : String
  lectureId : String
  assignedToId : String
  priority : TaskPriority
  dueDate : DueDate
  isAiGenerated : Bool
deriving DecidableEq, Repr

/-- Task descriptor as decoded from the task-extraction provider's JSON:
a dictionary with optional string fields.  `none` models an absent key (the
Python code reads the fields with `dict.get`). -/
structure TaskData where
  title : Option String
  description : Option String
  priority : Option String
  dueDate : Option String
deriving DecidableEq, Repr

/-- External providers, as pure functions: speech-to-text availability and
transcription, Gemini availability, summary generation, key-point extraction
and task extraction (each returning `none` on failure), plus the standard
library's ISO datetime parser used by the AI route. -/
structure Providers where
  sttAvailable : Bool
  transcribe : Option String → Option String
  geminiAvailable : Bool
  generateSummary : String → Option String
  extractKeyPoints : String → Option (List String)
  extractTasks : String → Option (List TaskData)
  parseIso : String → Option Nat

/-- Truthiness of an optional string in Python: `None` and `""` are falsy. -/
def strTruthy : Option String → Bool
  | none => false
  | some s => !(s == "")

/-- Provider invocations, in the order the four stages make them. -/
inductive StageCall where
  | transcribe
  | summarize
  | extractKeyPoints
  | extractTasks
deriving DecidableEq, Repr

/-- Outcome of `BackgroundProcessor._process_lecture`: an early `return`
commits nothing, a raised exception rolls the session back (so also commits
nothing) and propagates, and otherwise the updated lecture row and the
created task rows are committed together. -/
inductive ProcOutcome where
  | noCommit
  | raised
  | committed (lec : Lecture) (rows : List Task)
deriving DecidableEq, Repr

/-- Expression `', '.join(key_points) if key_points else None` of
`_process_lecture`: a missing or empty key-point list leaves the column NULL. -/
def joinKeyPoints : Option (List String) → Option String
  | some (x :: xs) => some (String.intercalate ", " (x :: xs))
  | _ => none

/-- Construction of one task row by `_process_lecture` for one descriptor and
one student.  The priority goes through `TaskPriority(task_data.get('priority',
'medium'))`, which fails on an unrecognized string; the due date is stored as
the raw descriptor value. -/
def mkTaskRow (lecId : String) (td : TaskData) (s : User) : Option Task :=
  (TaskPriority.ofString (td.priority.getD "medium")).map fun pr =>
    { title := td.title.getD "Extracted Task"
      description := td.description.getD ""
      lectureId := lecId
      assignedToId := s.id
      priority := pr
      dueDate := match td.dueDate with
        | none => DueDate.null
        | some ds => DueDate.raw ds
      isAiGenerated := true }

/-- Nested fan-out loops of `_process_lecture`: descriptors outer, students
inner, one row attempt per pair. -/
def fanoutPairs (lecId : String) (students : List User) : List TaskData → List (Option Task)
  | [] => []
  | td :: rest => students.map (mkTaskRow lecId td) ++ fanoutPairs lecId students rest

/-- Sequencing of the row attempts: the first failing `TaskPriority`
construction raises, and the rollback discards every row, so the whole fan-out
is `none` as soon as one pair fails. -/
def sequenceOpt {α : Type} : List (Option α) → Option (List α)
  | [] => some []
  | none :: _ => none
  | some a :: rest => (sequenceOpt rest).map (a :: ·)

/-- Filter `User.query.filter(User.role == 'student')` used at fan-out time. -/
def studentsOf (users : List User) : List User :=
  users.filter fun u => u.role == "student"

/-- Local `transcript` of `_process_lecture` once the truthiness check has
passed: the string carried by the provider's answer. -/
def transcriptOf (p : Providers) (lec : Lecture) : String :=
  (p.transcribe lec.audioUrl).getD ""

/-- Local `tasks_data` of `_process_lecture`, defaulted to the empty list when
the provider failed (Python falsiness of `None`). -/
def tasksDataOf (p : Providers) (lec : Lecture) : List TaskData :=
  (p.extractTasks (transcriptOf p lec)).getD []

/-- Trace of a run that reached all four stages. -/
def fullTrace : List StageCall :=
  [.transcribe, .summarize, .extractKeyPoints, .extractTasks]

/-- Lecture row as written by a successful `_process_lecture` commit
(lines 117–122 of services/background_processor.py). -/
def processedLecture (lec : Lecture) (t s : String) (kp : Option String) (u : Nat) : Lecture :=
  { lec with
    transcript := some t
    summary := some s
    keyPoints := kp
    isProcessed := true
    updatedAt := u }

/-- Lecture update committed by `_process_lecture` for the given providers. -/
def committedLecture (p : Providers) (now : Nat) (lec : Lecture) : Lecture :=
  processedLecture lec (transcriptOf p lec)
    ((p.generateSummary (transcriptOf p lec)).getD "")
    (joinKeyPoints (p.extractKeyPoints (transcriptOf p lec))) now

/-- Embedding of `BackgroundProcessor._process_lecture` (services/
background_processor.py lines 76–154), returning the outcome together with
the trace of provider calls made. -/
def processLecture (p : Providers) (users : List User) (now : Nat) (lec : Lecture) :
    ProcOutcome × List StageCall :=
  if !p.sttAvailable then (.noCommit, [])
  else if !(strTruthy (p.transcribe lec.audioUrl)) then (.noCommit, [.transcribe])
  else if !p.geminiAvailable then (.noCommit, [.transcribe])
  else if !(strTruthy (p.generateSummary (transcriptOf p lec))) then
    (.noCommit, [.transcribe, .summarize])
  else if (tasksDataOf p lec).isEmpty then
    (.committed (committedLecture p now lec) [], fullTrace)
  else
    match sequenceOpt (fanoutPairs lec.id (studentsOf users) (tasksDataOf p lec)) with
    | none => (.raised, fullTrace)
    | some rows => (.committed (committedLecture p now lec) rows, fullTrace)

/-- Database state: the three tables the pipeline touches. -/
structure DBState where
  users : List User
  lectures : List Lecture
  tasks : List Task
deriving DecidableEq, Repr

/-- Query `Lecture.query.get(lecture_id)`. -/
def findLecture (st : DBState) (lid : String) : Option Lecture :=
  st.lectures.find? fun l => l.id == lid

/-- Commit of an updated lecture row: every row with the same id is replaced. -/
def updateLecture (ls : List Lecture) (l2 : Lecture) : List Lecture :=
  ls.map fun l => if l.id == l2.id then l2 else l

/-- Application of a `_process_lecture` outcome to the database: only a
committed outcome changes it. -/
def applyOutcome (st : DBState) : ProcOutcome → DBState
  | .committed lec2 rows =>
      { st with lectures := updateLecture st.lectures lec2, tasks := st.tasks ++ rows }
  | _ => st

/-- Messages of `process_lecture_immediately`. -/
inductive ImmMessage where
  | notFound
  | alreadyProcessed
  | noAudio
  | processedOk
  | processingFailed
deriving DecidableEq, Repr

/-- Result dictionary of `process_lecture_immediately`. -/
structure ImmResult where
  success : Bool
  message : ImmMessage
deriving DecidableEq, Repr

/-- Embedding of `BackgroundProcessor.process_lecture_immediately`
(services/background_processor.py lines 156–179): looks the lecture up,
returns early on missing lecture, already-processed lecture or missing audio,
and otherwise runs `_process_lecture`, catching any raised exception. -/
def processLectureImmediately (p : Providers) (now : Nat) (st : DBState) (lid : String) :
    ImmResult × DBState × List StageCall :=
  match findLecture st lid with
  | none => (⟨false, .notFound⟩, st, [])
  | some lec =>
    if lec.isProcessed then (⟨true, .alreadyProcessed⟩, st, [])
    else if lec.audioUrl.isNone then (⟨false, .noAudio⟩, st, [])
    else
      match processLecture p st.users now lec with
      | (.committed lec2 rows, tr) =>
          (⟨true, .processedOk⟩, applyOutcome st (.committed lec2 rows), tr)
      | (.noCommit, tr) => (⟨true, .processedOk⟩, st, tr)
      | (.raised, tr) => (⟨false, .processingFailed⟩, st, tr)

/-- Candidate query of `_process_unprocessed_lectures`: lectures with a
non-NULL `audio_url` and `is_processed == False`, `limit(5)`, in the store's
iteration order (the query has no `order_by`). -/
def selectUnprocessed (lectures : List Lecture) : List Lecture :=
  (lectures.filter fun l => l.audioUrl.isSome && !l.isProcessed).take 5

/-- Embedding of `BackgroundProcessor._process_unprocessed_lectures`: the
batch is selected once, then each candidate is processed in turn; a raised
exception is caught and the loop continues with the next candidate. -/
def processUnprocessedLectures (p : Providers) (now : Nat) (st : DBState) : DBState :=
  (selectUnprocessed st.lectures).foldl
    (fun acc lec => applyOutcome acc (processLecture p acc.users now lec).fst) st

/-- Key-point prompt built by `routes/lectures.py process_lecture` and passed
to the summary generator. -/
def keyPointsPrompt (t : String) : String :=
  "Extract the key points from this lecture transcript:\n\n" ++ t ++
    "\n\nProvide 5-7 main points in bullet format."

/-- HTTP-level status of the route `POST /<lecture_id>/process`. -/
inductive RouteStatus where
  | notFound
  | noAudio
  | ok
deriving DecidableEq, Repr

/-- Field `processing_results` of the lectures route's success response. -/
structure RouteResults where
  status : RouteStatus
  transcriptGenerated : Bool
  summaryGenerated : Bool
  keyPointsGenerated : Bool
deriving DecidableEq, Repr

/-- Embedding of `process_lecture` of routes/lectures.py (lines 286–370):
transcription and summarization are both optional (a failure only logs a
warning), key points are produced by a second summary call on a derived
prompt, no tasks are created, and the lecture is marked processed and
committed unconditionally once it is found and has audio. -/
def routeProcessLecture (p : Providers) (now : Nat) (st : DBState) (lid : String) :
    RouteResults × DBState :=
  match findLecture st lid with
  | none => (⟨.notFound, false, false, false⟩, st)
  | some lec =>
    if lec.audioUrl.isNone then (⟨.noAudio, false, false, false⟩, st)
    else
      let tOpt := if p.sttAvailable then p.transcribe lec.audioUrl else none
      let l1 := if strTruthy tOpt then { lec with transcript := some (tOpt.getD "") } else lec
      let t := tOpt.getD ""
      let sOpt := if p.geminiAvailable && strTruthy tOpt then p.generateSummary t else none
      let l2 := if strTruthy sOpt then { l1 with summary := some (sOpt.getD "") } else l1
      let kOpt :=
        if p.geminiAvailable && strTruthy tOpt then p.generateSummary (keyPointsPrompt t)
        else none
      let l3 := if strTruthy kOpt then { l2 with keyPoints := some (kOpt.getD "") } else l2
      let lf := { l3 with isProcessed := true, updatedAt := now }
      (⟨.ok, strTruthy tOpt, strTruthy sOpt, strTruthy kOpt⟩,
        { st with lectures := updateLecture st.lectures lf })

/-- HTTP-level status of the route `POST /process-lecture/<lecture_id>` of
routes/ai.py. -/
inductive AiStatus where
  | notFound
  | noAudio
  | transcribeFailed
  | summaryFailed
  | ok
deriving DecidableEq, Repr

/-- Construction of one task row by the AI route's fan-out (routes/ai.py
lines 192–223): the priority string is lower-cased and mapped
high→High / low→Low / otherwise→Medium, and `due_date` is parsed with
`datetime.fromisoformat`, falling back to NULL on a parse error. -/
def mkTaskRowAi (parseIso : String → Option Nat) (lecId : String) (td : TaskData)
    (s : User) : Task :=
  let prStr := (td.priority.getD "medium").toLower
  let pr : TaskPriority :=
    if prStr == "high" then .high else if prStr == "low" then .low else .medium
  let dd : DueDate :=
    match td.dueDate with
    | none => .null
    | some ds =>
      if ds == "" then .null
      else
        match parseIso ds with
        | some tval => .date tval
        | none => .null
  { title := td.title.getD "Extracted Task"
    description := td.description.getD ""
    lectureId := lecId
    assignedToId := s.id
    priority := pr
    dueDate := dd
    isAiGenerated := true }

/-- Embedding of `process_lecture` of routes/ai.py (lines 126–247):
transcription and summarization are mandatory (a failure returns an error
with no writes), key points are optional, tasks are extracted when Gemini is
available and fanned out over every student with per-pair normalization, and
the lecture update plus the task rows are committed together. -/
def aiProcessLecture (p : Providers) (now : Nat) (st : DBState) (lid : String) :
    AiStatus × DBState :=
  match findLecture st lid with
  | none => (.notFound, st)
  | some lec =>
    if lec.audioUrl.isNone then (.noAudio, st)
    else
      let tOpt := p.transcribe lec.audioUrl
      if !(strTruthy tOpt) then (.transcribeFailed, st)
      else
        let t := tOpt.getD ""
        let sOpt := p.generateSummary t
        if !(strTruthy sOpt) then (.summaryFailed, st)
        else
          let kOpt := p.extractKeyPoints t
          let tds := if p.geminiAvailable then p.extractTasks t else some []
          let l2 : Lecture :=
            { lec with
              transcript := some t
              summary := some (sOpt.getD "")
              keyPoints :=
                match kOpt with
                | some (x :: xs) => some (String.intercalate ", " (x :: xs))
                | _ => lec.keyPoints
              isProcessed := true
              updatedAt := now }
          let tdList := tds.getD []
          let students := studentsOf st.users
          let rows :=
            if tdList.isEmpty || students.isEmpty then []
            else tdList.flatMap fun td => students.map (mkTaskRowAi p.parseIso lec.id td)
          (.ok, { st with lectures := updateLecture st.lectures l2, tasks := st.tasks ++ rows })

/-- Check phase of one immediate-processing attempt: the lecture lookup and
the `is_processed` / `audio_url` tests of `process_lecture_immediately`,
yielding the attempt's lecture snapshot when the attempt will proceed. -/
def attemptCheck (st : DBState) (lid : String) : Option Lecture :=
  match findLecture st lid with
  | none => none
  | some lec => if lec.isProcessed || lec.audioUrl.isNone then none else some lec

/-- Run phase of one immediate-processing attempt: `_process_lecture` executed
on the attempt's own snapshot, with its commit applied to the current shared
database. -/
def attemptRun (p : Providers) (now : Nat) (st : DBState) (snap : Lecture) : DBState :=
  applyOutcome st (processLecture p st.users now snap).fst

/-- Sequential schedule of two immediate attempts on the same lecture id:
the second attempt's check runs after the first attempt has finished.
The returned number counts how many attempts executed the stage pipeline. -/
def raceSequential (p : Providers) (now : Nat) (st : DBState) (lid : String) :
    DBState × Nat :=
  let step1 : DBState × Nat :=
    match attemptCheck st lid with
    | some snap => (attemptRun p now st snap, 1)
    | none => (st, 0)
  match attemptCheck step1.fst lid with
  | some snap => (attemptRun p now step1.fst snap, step1.snd + 1)
  | none => (step1.fst, step1.snd)

/-- Interleaved schedule of two immediate attempts on the same lecture id:
both checks read the initial database before either run commits (the
read-then-act window of `process_lecture_immediately`, which has no
single-flight gate).  The returned number counts how many attempts executed
the stage pipeline. -/
def raceInterleaved (p : Providers) (now : Nat) (st : DBState) (lid : String) :
    DBState × Nat :=
  match attemptCheck st lid, attemptCheck st lid with
  | some snapA, some snapB =>
      let st1 := attemptRun p now st snapA
      (attemptRun p now st1 snapB, 2)
  | some snapA, none => (attemptRun p now st snapA, 1)
  | none, some snapB => (attemptRun p now st snapB, 1)
  | none, none => (st, 0)

/-! Concrete fixtures used by witnesses and counterexamples. -/

/-- Providers where every stage succeeds, mirroring the spec's end-to-end
scenario: transcription yields "hello world", the summary "greeting", one key
point and one extracted task with priority "high". -/
def okProviders : Providers where
  sttAvailable := true
  transcribe := fun _ => some "hello world"
  geminiAvailable := true
  generateSummary := fun _ => some "greeting"
  extractKeyPoints := fun _ => some ["greeting"]
  extractTasks := fun _ => some [⟨some "Read ch.1", some "Read chapter one", some "high", none⟩]
  parseIso := fun s => if s == "2024-01-01T00:00:00" then some 1704067200 else none

/-- Providers whose transcription fails. -/
def failTranscribeProviders : Providers :=
  { okProviders with transcribe := fun _ => none }

/-- Providers whose summarization fails after a successful transcription. -/
def failSummaryProviders : Providers :=
  { okProviders with generateSummary := fun _ => none }

/-- Providers extracting one task whose priority string is unrecognized. -/
def badPriorityProviders : Providers :=
  { okProviders with
    extractTasks := fun _ => some [⟨some "T", some "", some "urgent", none⟩] }

/-- Providers extracting one task whose priority is a capitalized spelling of
a recognized value. -/
def capsPriorityProviders : Providers :=
  { okProviders with
    extractTasks := fun _ => some [⟨some "T", some "", some "High", none⟩] }

/-- Providers extracting one task with a recognized priority and an
unparsable due date. -/
def badDateProviders : Providers :=
  { okProviders with
    extractTasks := fun _ => some [⟨some "T", some "", some "high", some "not-a-date"⟩] }

/-- Fixture student. -/
def student1 : User := ⟨"s1", "student"⟩

/-- Fixture lecture with uploaded audio and no derived fields. -/
def lec1 : Lecture := ⟨"L1", "Algebra", some "a1", none, none, none, false, 0, 0⟩

/-- Fixture lecture already marked processed. -/
def lecDone : Lecture :=
  ⟨"L2", "Biology", some "a2", some "t", some "s", none, true, 0, 0⟩

/-- Fixture database with one student and one eligible lecture. -/
def st1 : DBState := ⟨[student1], [lec1], []⟩

/-- Fixture database with one student and one already-processed lecture. -/
def stDone : DBState := ⟨[student1], [lecDone], []⟩

/-- Fixture eligible lecture created later than `lecOld`. -/
def lecNew : Lecture := ⟨"N", "New", some "aN", none, none, none, false, 10, 0⟩

/-- Fixture eligible lecture created earlier than `lecNew`. -/
def lecOld : Lecture := ⟨"O", "Old", some "aO", none, none, none, false, 5, 0⟩

/-! Helper lemmas. -/

theorem strTruthy_iff (o : Option String) :
    strTruthy o = true ↔ ∃ s, o = some s ∧ s ≠ "" := by
  cases o with
  | none => simp [strTruthy]
  | some s => simp [strTruthy]

theorem strTruthy_some (t : String) (h : t ≠ "") : strTruthy (some t) = true := by
  simp [strTruthy, h]

theorem find_updateLecture (ls : List Lecture) (lid : String) (lec lec2 : Lecture)
    (h : ls.find? (fun l => l.id == lid) = some lec) (hid : lec2.id = lec.id) :
    (updateLecture ls lec2).find? (fun l => l.id == lid) = some lec2 := by
  have hlid : (lec.id == lid) = true := by
    have h2 := List.find?_some h
    simpa using h2
  induction ls with
  | nil => simp [List.find?] at h
  | cons a as ih =>
    by_cases ha : (a.id == lid) = true
    · have haeq : a = lec := by
        simp [List.find?_cons, ha] at h
        exact h
      subst haeq
      have h2 : a.id = lec2.id := hid.symm
      have hif : (if a.id == lec2.id then lec2 else a) = lec2 := by
        simp [h2]
      have hhead : updateLecture (a :: as) lec2 =
          lec2 :: updateLecture as lec2 := by
        simp only [updateLecture, List.map_cons]
        rw [hif]
      have hl2 : (lec2.id == lid) = true := by
        rw [hid]
        exact ha
      rw [hhead]
      simp [List.find?_cons, hl2]
    · simp only [List.find?_cons, ha] at h
      rw [Bool.not_eq_true] at ha
      have h2 : (a.id == lec2.id) = false := by
        by_contra hc
        have h3 : a.id = lec2.id := beq_iff_eq.mp (Bool.of_not_eq_false hc)
        have h4 : lec.id = lid := beq_iff_eq.mp hlid
        rw [h3, hid, h4] at ha
        simp at ha
      have hif : (if a.id == lec2.id then lec2 else a) = a := by
        simp [h2]
      have hhead : updateLecture (a :: as) lec2 =
          a :: updateLecture as lec2 := by
        simp only [updateLecture, List.map_cons]
        rw [hif]
      rw [hhead]
      simp only [List.find?_cons, ha]
      exact ih h

theorem sequenceOpt_length {α : Type} :
    ∀ {l : List (Option α)} {l2 : List α}, sequenceOpt l = some l2 → l2.length = l.length := by
  intro l
  induction l with
  | nil =>
    intro l2 h
    simp [sequenceOpt] at h
    simp [← h]
  | cons a rest ih =>
    intro l2 h
    cases a with
    | none => simp [sequenceOpt] at h
    | some a =>
      simp only [sequenceOpt, Option.map_eq_some'] at h
      obtain ⟨r, hr, hl2⟩ := h
      subst hl2
      simp [ih hr]

theorem sequenceOpt_isSome {α : Type} :
    ∀ {l : List (Option α)}, (∀ x ∈ l, x.isSome) → (sequenceOpt l).isSome := by
  intro l
  induction l with
  | nil => intro _; simp [sequenceOpt]
  | cons a rest ih =>
    intro h
    cases a with
    | none =>
      have := h none (by simp)
      simp at this
    | some a =>
      have hrest := ih fun x hx => h x (by simp [hx])
      simp only [sequenceOpt]
      simpa using hrest

theorem sequenceOpt_mem {α : Type} :
    ∀ {l : List (Option α)} {l2 : List α}, sequenceOpt l = some l2 →
      ∀ a ∈ l2, some a ∈ l := by
  intro l
  induction l with
  | nil =>
    intro l2 h a ha
    simp [sequenceOpt] at h
    subst h
    simp at ha
  | cons x rest ih =>
    intro l2 h a ha
    cases x with
    | none => simp [sequenceOpt] at h
    | some x =>
      simp only [sequenceOpt, Option.map_eq_some'] at h
      obtain ⟨r, hr, hl2⟩ := h
      subst hl2
      rcases List.mem_cons.mp ha with h1 | h1
      · subst h1; simp
      · exact List.mem_cons_of_mem _ (ih hr a h1)

theorem sequenceOpt_eq_none {α : Type} :
    ∀ {l : List (Option α)}, (none ∈ l) → sequenceOpt l = none := by
  intro l
  induction l with
  | nil => intro h; simp at h
  | cons x rest ih =>
    intro h
    rcases List.mem_cons.mp h with h1 | h1
    · rw [← h1]; simp [sequenceOpt]
    · cases x with
      | none => simp [sequenceOpt]
      | some x => simp [sequenceOpt, ih h1]

theorem fanoutPairs_length (lecId : String) (students : List User) :
    ∀ tds : List TaskData,
      (fanoutPairs lecId students tds).length = tds.length * students.length := by
  intro tds
  induction tds with
  | nil => simp [fanoutPairs]
  | cons td rest ih =>
    simp [fanoutPairs, ih, Nat.succ_mul, Nat.add_comm]

theorem mem_fanoutPairs (lecId : String) (students : List User) (x : Option Task) :
    ∀ tds : List TaskData,
      (x ∈ fanoutPairs lecId students tds ↔
        ∃ td ∈ tds, ∃ s ∈ students, x = mkTaskRow lecId td s) := by
  intro tds
  induction tds with
  | nil => simp [fanoutPairs]
  | cons td rest ih =>
    simp only [fanoutPairs, List.mem_append, List.mem_map, ih, List.mem_cons]
    constructor
    · rintro (⟨s, hs, hx⟩ | ⟨td2, htd2, s, hs, hx⟩)
      · exact ⟨td, Or.inl rfl, s, hs, hx.symm⟩
      · exact ⟨td2, Or.inr htd2, s, hs, hx⟩
    · rintro ⟨td2, htd2, s, hs, hx⟩
      rcases htd2 with h | h
      · subst h; exact Or.inl ⟨s, hs, hx.symm⟩
      · exact Or.inr ⟨td2, h, s, hs, hx⟩

theorem mkTaskRow_isSome (lecId : String) (td : TaskData) (s : User) :
    (mkTaskRow lecId td s).isSome =
      (TaskPriority.ofString (td.priority.getD "medium")).isSome := by
  simp [mkTaskRow, Option.isSome_map]

theorem mkTaskRow_ai_generated (lecId : String) (td : TaskData) (s : User) (r : Task)
    (h : mkTaskRow lecId td s = some r) : r.isAiGenerated = true := by
  simp only [mkTaskRow, Option.map_eq_some'] at h
  obtain ⟨pr, _, hr⟩ := h
  rw [← hr]

theorem fanoutPairs_nil_students (lecId : String) :
    ∀ tds : List TaskData, fanoutPairs lecId [] tds = [] := by
  intro tds
  induction tds with
  | nil => rfl
  | cons td rest ih => simp [fanoutPairs, ih]

theorem processLecture_committed_shape (p : Providers) (users : List User) (now : Nat)
    (lec lec2 : Lecture) (rows : List Task) (tr : List StageCall)
    (h : processLecture p users now lec = (ProcOutcome.committed lec2 rows, tr)) :
    ∃ t s kp,
      t ≠ "" ∧ s ≠ "" ∧ lec2 = processedLecture lec t s kp now := by
  unfold processLecture at h
  split at h
  · simp at h
  · split at h
    · simp at h
    · split at h
      · simp at h
      · split at h
        · simp at h
        · have hcl : lec2 = committedLecture p now lec := by
            split at h
            · rw [Prod.mk.injEq] at h
              injection h.1 with h1 _
              exact h1.symm
            · split at h
              · simp at h
              · rw [Prod.mk.injEq] at h
                injection h.1 with h1 _
                exact h1.symm
          rename_i ht hg hs
          have ht2 : strTruthy (p.transcribe lec.audioUrl) = true := by simpa using ht
          have hs2 : strTruthy (p.generateSummary (transcriptOf p lec)) = true := by
            simpa using hs
          obtain ⟨t, htv, ht0⟩ := (strTruthy_iff _).mp ht2
          obtain ⟨s, hsv, hs0⟩ := (strTruthy_iff _).mp hs2
          refine ⟨transcriptOf p lec, _, _, ?_, ?_, hcl⟩
          · rw [transcriptOf, htv]
            simpa using ht0
          · rw [hsv]
            simpa using hs0

theorem processedLecture_id (lec : Lecture) (t s : String) (kp : Option String) (u : Nat) :
    (processedLecture lec t s kp u).id = lec.id := rfl

theorem processedLecture_isProcessed (lec : Lecture) (t s : String) (kp : Option String)
    (u : Nat) : (processedLecture lec t s kp u).isProcessed = true := rfl

theorem immediate_on_processed (p : Providers) (now : Nat) (st : DBState) (lid : String)
    (lec : Lecture) (hfind : findLecture st lid = some lec) (hproc : lec.isProcessed = true) :
    processLectureImmediately p now st lid = (⟨true, .alreadyProcessed⟩, st, []) := by
  unfold processLectureImmediately
  rw [hfind]
  simp [hproc]

theorem immediate_commit_run (p : Providers) (now : Nat) (st : DBState) (lid : String)
    (lec lec2 : Lecture) (rows : List Task) (tr : List StageCall)
    (hfind : findLecture st lid = some lec) (hunproc : lec.isProcessed = false)
    (haudio : lec.audioUrl.isSome = true)
    (hrun : processLecture p st.users now lec = (.committed lec2 rows, tr)) :
    processLectureImmediately p now st lid =
      (⟨true, .processedOk⟩, applyOutcome st (.committed lec2 rows), tr) := by
  obtain ⟨a, haud⟩ := Option.isSome_iff_exists.mp haudio
  unfold processLectureImmediately
  rw [hfind]
  simp [hunproc, haud, hrun]

theorem find_after_commit (st : DBState) (lid : String) (lec lec2 : Lecture)
    (rows : List Task) (hfind : findLecture st lid = some lec) (hid : lec2.id = lec.id) :
    findLecture (applyOutcome st (.committed lec2 rows)) lid = some lec2 := by
  unfold findLecture applyOutcome
  exact find_updateLecture st.lectures lid lec lec2 hfind hid

/-- C6: invoking the immediate-processing trigger on a lecture already marked
processed is a safe no-op returning an already-processed success, with no
provider call (empty trace) and no database change; consequently a second
invocation after a first one whose pipeline committed is exactly such a no-op,
so it creates no duplicate task rows and re-runs no provider. -/
theorem triggerImmediate_idempotent (p q : Providers) (now now2 : Nat) (st : DBState)
    (lid : String) (lec : Lecture)
    (hfind : findLecture st lid = some lec) :
    (lec.isProcessed = true →
      processLectureImmediately p now st lid = (⟨true, .alreadyProcessed⟩, st, [])) ∧
    (∀ lec2 rows tr, lec.isProcessed = false → lec.audioUrl.isSome = true →
      processLecture p st.users now lec = (.committed lec2 rows, tr) →
      processLectureImmediately q now2 (processLectureImmediately p now st lid).2.1 lid =
        (⟨true, .alreadyProcessed⟩, (processLectureImmediately p now st lid).2.1, [])) := by
  constructor
  · intro hproc
    exact immediate_on_processed p now st lid lec hfind hproc
  · intro lec2 rows tr hunproc haudio hrun
    have h1 := immediate_commit_run p now st lid lec lec2 rows tr hfind hunproc haudio hrun
    obtain ⟨t, s, kp, _, _, hshape⟩ :=
      processLecture_committed_shape p st.users now lec lec2 rows tr hrun
    have hid : lec2.id = lec.id := by rw [hshape]; rfl
    have hproc2 : lec2.isProcessed = true := by rw [hshape]; rfl
    have hfind2 : findLecture (applyOutcome st (.committed lec2 rows)) lid = some lec2 :=
      find_after_commit st lid lec lec2 rows hfind hid
    rw [h1]
    exact immediate_on_processed q now2 _ lid lec2 hfind2 hproc2

/-- Closed instance of `triggerImmediate_idempotent`: the fixture database
whose only lecture is already processed is left untouched with an
already-processed success and an empty provider trace. -/
theorem triggerImmediate_idempotent_witness :
    processLectureImmediately okProviders 5 stDone "L2" =
      (⟨true, .alreadyProcessed⟩, stDone, []) :=
  (triggerImmediate_idempotent okProviders okProviders 5 5 stDone "L2" lecDone
    (by decide)).1 (by decide)

theorem processLecture_transcribe_falsy (p : Providers) (users : List User) (now : Nat)
    (lec : Lecture) (hstt : p.sttAvailable = true)
    (hfail : strTruthy (p.transcribe lec.audioUrl) = false) :
    processLecture p users now lec = (.noCommit, [.transcribe]) := by
  simp [processLecture, hstt, hfail]

theorem processLecture_summary_falsy (p : Providers) (users : List User) (now : Nat)
    (lec : Lecture) (hstt : p.sttAvailable = true)
    (ht : strTruthy (p.transcribe lec.audioUrl) = true) (hg : p.geminiAvailable = true)
    (hs : strTruthy (p.generateSummary (transcriptOf p lec)) = false) :
    processLecture p users now lec = (.noCommit, [.transcribe, .summarize]) := by
  simp [processLecture, hstt, ht, hg, hs]

theorem immediate_noCommit_run (p : Providers) (now : Nat) (st : DBState) (lid : String)
    (lec : Lecture) (tr : List StageCall)
    (hfind : findLecture st lid = some lec) (hunproc : lec.isProcessed = false)
    (haudio : lec.audioUrl.isSome = true)
    (hrun : processLecture p st.users now lec = (.noCommit, tr)) :
    processLectureImmediately p now st lid = (⟨true, .processedOk⟩, st, tr) := by
  obtain ⟨a, haud⟩ := Option.isSome_iff_exists.mp haudio
  unfold processLectureImmediately
  rw [hfind]
  simp [hunproc, haud, hrun]

/-- C1 (amended): in the background processor, a failed or empty transcription
aborts the attempt with no durable writes: `_process_lecture` returns without
committing, so the immediate trigger leaves the database exactly unchanged —
no derived fields, no task rows, the lecture still unprocessed (the trigger
still reports a generic success).  The lectures route `/process`, by contrast,
marks the lecture processed even when transcription fails (see the
counterexample). -/
theorem background_transcribe_failure_no_writes (p : Providers) (now : Nat) (st : DBState)
    (lid : String) (lec : Lecture)
    (hfind : findLecture st lid = some lec) (hunproc : lec.isProcessed = false)
    (haudio : lec.audioUrl.isSome = true) (hstt : p.sttAvailable = true)
    (hfail : strTruthy (p.transcribe lec.audioUrl) = false) :
    processLecture p st.users now lec = (.noCommit, [.transcribe]) ∧
    processLectureImmediately p now st lid = (⟨true, .processedOk⟩, st, [.transcribe]) := by
  have h1 := processLecture_transcribe_falsy p st.users now lec hstt hfail
  exact ⟨h1, immediate_noCommit_run p now st lid lec _ hfind hunproc haudio h1⟩

/-- Closed instance of `background_transcribe_failure_no_writes` at the
fixture database and failing transcription provider. -/
theorem background_transcribe_failure_no_writes_witness :
    processLecture failTranscribeProviders st1.users 5 lec1 = (.noCommit, [.transcribe]) ∧
    processLectureImmediately failTranscribeProviders 5 st1 "L1" =
      (⟨true, .processedOk⟩, st1, [.transcribe]) :=
  background_transcribe_failure_no_writes failTranscribeProviders 5 st1 "L1" lec1
    (by decide) (by decide) (by decide) (by decide) (by decide)

/-- Counterexample to C1 as stated: the lectures route `/process` (one of the
claim's two cited code paths), run with a failing transcription provider on an
eligible lecture, still marks the lecture processed, so the attempt does not
leave the lecture unprocessed. -/
theorem routeProcess_processed_despite_transcribe_failure :
    (routeProcessLecture failTranscribeProviders 5 st1 "L1").1.transcriptGenerated = false ∧
    (findLecture (routeProcessLecture failTranscribeProviders 5 st1 "L1").2 "L1").map
      Lecture.isProcessed = some true := by
  decide

/-- C3 (amended): when transcription succeeds and summarization then fails,
the background attempt aborts with no writes at all: the transcript is NOT
persisted (results are committed only once, at the end of a fully successful
attempt, not after each stage) and the lecture remains unprocessed. -/
theorem summary_failure_aborts_without_persisting_transcript (p : Providers) (now : Nat)
    (st : DBState) (lid : String) (lec : Lecture)
    (hfind : findLecture st lid = some lec) (hunproc : lec.isProcessed = false)
    (haudio : lec.audioUrl.isSome = true) (hstt : p.sttAvailable = true)
    (ht : strTruthy (p.transcribe lec.audioUrl) = true) (hg : p.geminiAvailable = true)
    (hs : strTruthy (p.generateSummary (transcriptOf p lec)) = false) :
    processLectureImmediately p now st lid =
      (⟨true, .processedOk⟩, st, [.transcribe, .summarize]) :=
  immediate_noCommit_run p now st lid lec _ hfind hunproc haudio
    (processLecture_summary_falsy p st.users now lec hstt ht hg hs)

/-- Closed instance of `summary_failure_aborts_without_persisting_transcript`
at the fixture database and failing summarization provider. -/
theorem summary_failure_aborts_witness :
    processLectureImmediately failSummaryProviders 5 st1 "L1" =
      (⟨true, .processedOk⟩, st1, [.transcribe, .summarize]) :=
  summary_failure_aborts_without_persisting_transcript failSummaryProviders 5 st1 "L1" lec1
    (by decide) (by decide) (by decide) (by decide) (by decide) (by decide) (by decide)

/-- Counterexample to C3 as stated: with a transcription that succeeds
("hello world") and a summarization that fails, the attempt leaves the
lecture's transcript field still empty — the transcript is not durably
persisted, contrary to the claim. -/
theorem transcript_lost_on_summary_failure :
    strTruthy (failSummaryProviders.transcribe lec1.audioUrl) = true ∧
    (processLectureImmediately failSummaryProviders 5 st1 "L1").2.1 = st1 ∧
    (findLecture (processLectureImmediately failSummaryProviders 5 st1 "L1").2.1 "L1").map
      Lecture.transcript = some none := by
  decide

/-- C7 (amended): when transcription succeeds and summarization fails, the
background processor returns early: stages 3 (ExtractKeyPoints) and 4
(ExtractTasks) do NOT execute — their providers are never called and the
attempt commits nothing. -/
theorem summarize_failure_blocks_stages34 (p : Providers) (users : List User) (now : Nat)
    (lec : Lecture) (hstt : p.sttAvailable = true)
    (ht : strTruthy (p.transcribe lec.audioUrl) = true) (hg : p.geminiAvailable = true)
    (hs : strTruthy (p.generateSummary (transcriptOf p lec)) = false) :
    StageCall.extractKeyPoints ∉ (processLecture p users now lec).2 ∧
    StageCall.extractTasks ∉ (processLecture p users now lec).2 ∧
    (processLecture p users now lec).1 = .noCommit := by
  have h := processLecture_summary_falsy p users now lec hstt ht hg hs
  rw [h]
  refine ⟨?_, ?_, rfl⟩ <;> decide

/-- Closed instance of `summarize_failure_blocks_stages34` at the fixture
inputs. -/
theorem summarize_failure_blocks_stages34_witness :
    StageCall.extractKeyPoints ∉ (processLecture failSummaryProviders [student1] 5 lec1).2 ∧
    StageCall.extractTasks ∉ (processLecture failSummaryProviders [student1] 5 lec1).2 ∧
    (processLecture failSummaryProviders [student1] 5 lec1).1 = .noCommit :=
  summarize_failure_blocks_stages34 failSummaryProviders [student1] 5 lec1
    (by decide) (by decide) (by decide) (by decide)

/-- Counterexample to C7 as stated: at the fixture input whose summarization
fails after a successful transcription, the provider-call trace of the
background attempt is exactly Transcribe, Summarize — stages 3 and 4 did not
execute. -/
theorem stages34_not_executed_on_summary_failure :
    (processLecture failSummaryProviders [student1] 5 lec1).2 =
      [.transcribe, .summarize] := by
  decide

/-- C5 (amended): the Processed-implies-nonempty-fields invariant holds for
the background processor — its commit is the only way it marks a lecture
processed, and that commit always writes a non-empty transcript and a
non-empty summary — but the lectures route `/process` can mark a lecture
processed with both fields still empty (see the counterexample), so the
invariant is not preserved by every operation that marks a lecture
processed. -/
theorem background_processed_invariant (p : Providers) (users : List User) (now : Nat)
    (lec lec2 : Lecture) (rows : List Task) (tr : List StageCall)
    (h : processLecture p users now lec = (.committed lec2 rows, tr)) :
    lec2.isProcessed = true ∧
    (∃ t, lec2.transcript = some t ∧ t ≠ "") ∧
    (∃ s, lec2.summary = some s ∧ s ≠ "") := by
  obtain ⟨t, s, kp, ht0, hs0, hshape⟩ :=
    processLecture_committed_shape p users now lec lec2 rows tr h
  subst hshape
  exact ⟨rfl, ⟨t, rfl, ht0⟩, ⟨s, rfl, hs0⟩⟩

/-- Closed instance of `background_processed_invariant` at the fixture run in
which every provider succeeds. -/
theorem background_processed_invariant_witness :
    (committedLecture okProviders 5 lec1).isProcessed = true ∧
    (∃ t, (committedLecture okProviders 5 lec1).transcript = some t ∧ t ≠ "") ∧
    (∃ s, (committedLecture okProviders 5 lec1).summary = some s ∧ s ≠ "") :=
  background_processed_invariant okProviders [student1] 5 lec1
    (committedLecture okProviders 5 lec1)
    [⟨"Read ch.1", "Read chapter one", "L1", "s1", .high, .null, true⟩] fullTrace
    (by decide)

/-- Counterexample to C5 as stated: the lectures route `/process`, with a
failing transcription provider, marks the fixture lecture processed while its
transcript and summary are both still NULL — a processed lecture with empty
derived fields. -/
theorem route_processed_with_empty_fields :
    (findLecture (routeProcessLecture failTranscribeProviders 5 st1 "L1").2 "L1").map
      (fun l => (l.isProcessed, l.transcript, l.summary)) = some (true, none, none) := by
  decide

/-- C2 (amended): when the pipeline reaches fan-out with D descriptors and S
students, and either S = 0 or every descriptor's priority string is accepted
by the TaskPriority constructor, exactly D×S task rows are committed, each
flagged AI-generated (S = 0 commits zero rows without failing); without the
priority proviso the claim fails, because one unrecognized priority string
raises and aborts the whole attempt with zero rows (see the
counterexample). -/
theorem fanout_cardinality (p : Providers) (users : List User) (now : Nat) (lec : Lecture)
    (t : String) (tds : List TaskData)
    (hstt : p.sttAvailable = true)
    (ht : p.transcribe lec.audioUrl = some t) (ht0 : t ≠ "")
    (hg : p.geminiAvailable = true)
    (hs : strTruthy (p.generateSummary t) = true)
    (htd : p.extractTasks t = some tds)
    (hok : studentsOf users = [] ∨
      ∀ td ∈ tds, (TaskPriority.ofString (td.priority.getD "medium")).isSome = true) :
    ∃ rows,
      (processLecture p users now lec).1 = .committed (committedLecture p now lec) rows ∧
      rows.length = tds.length * (studentsOf users).length ∧
      ∀ r ∈ rows, r.isAiGenerated = true := by
  have htr : transcriptOf p lec = t := by
    rw [transcriptOf, ht]
    rfl
  have httruthy : strTruthy (p.transcribe lec.audioUrl) = true := by
    rw [ht]
    exact strTruthy_some t ht0
  have hs2 : strTruthy (p.generateSummary (transcriptOf p lec)) = true := by
    rw [htr]
    exact hs
  have htds : tasksDataOf p lec = tds := by
    rw [tasksDataOf, htr, htd]
    rfl
  by_cases hempty : tds.isEmpty
  · have hnil : tds = [] := by simpa using hempty
    subst hnil
    refine ⟨[], ?_, by simp, by simp⟩
    simp [processLecture, hstt, httruthy, hg, hs2, htds]
  · rcases hok with hnil | hall
    · refine ⟨[], ?_, by simp [hnil], by simp⟩
      simp [processLecture, hstt, httruthy, hg, hs2, htds, hempty, hnil,
        fanoutPairs_nil_students, sequenceOpt]
    · have hsome : (sequenceOpt (fanoutPairs lec.id (studentsOf users) tds)).isSome := by
        apply sequenceOpt_isSome
        intro x hx
        rw [mem_fanoutPairs] at hx
        obtain ⟨td, htd2, s, hss, hxval⟩ := hx
        rw [hxval, mkTaskRow_isSome]
        exact hall td htd2
      obtain ⟨rows, hrows⟩ := Option.isSome_iff_exists.mp hsome
      refine ⟨rows, ?_, ?_, ?_⟩
      · simp [processLecture, hstt, httruthy, hg, hs2, htds, hempty, hrows]
      · rw [sequenceOpt_length hrows, fanoutPairs_length]
      · intro r hr
        have hmem := sequenceOpt_mem hrows r hr
        rw [mem_fanoutPairs] at hmem
        obtain ⟨td, _, s, _, hval⟩ := hmem
        exact mkTaskRow_ai_generated lec.id td s r hval.symm

/-- Closed instance of `fanout_cardinality`: one descriptor, one student, a
recognized priority: exactly one AI-generated task row. -/
theorem fanout_cardinality_witness :
    ∃ rows,
      (processLecture okProviders [student1] 5 lec1).1 =
        .committed (committedLecture okProviders 5 lec1) rows ∧
      rows.length =
        [(⟨some "Read ch.1", some "Read chapter one", some "high", none⟩ : TaskData)].length *
          (studentsOf [student1]).length ∧
      ∀ r ∈ rows, r.isAiGenerated = true :=
  fanout_cardinality okProviders [student1] 5 lec1 "hello world"
    [⟨some "Read ch.1", some "Read chapter one", some "high", none⟩]
    (by decide) (by decide) (by decide) (by decide) (by decide) (by decide)
    (Or.inr (by decide))

/-- Counterexample to C2 as stated: one descriptor (D = 1) whose priority
string is unrecognized, one student (S = 1): instead of D×S = 1 task rows the
attempt raises and zero rows are committed. -/
theorem fanout_cardinality_bad_priority :
    (badPriorityProviders.extractTasks "hello world").map List.length = some 1 ∧
    (studentsOf st1.users).length = 1 ∧
    (processLecture badPriorityProviders st1.users 5 lec1).1 = .raised ∧
    (applyOutcome st1 (processLecture badPriorityProviders st1.users 5 lec1).1).tasks = [] := by
  decide

/-- C4 (amended): the background processor passes the raw priority string to
the TaskPriority constructor without lower-casing: exactly "high", "medium",
"low" (and a missing value, defaulted to "medium") are accepted, and any
other string — even "High" — raises and aborts the whole attempt whenever at
least one student exists; the AI route, by contrast, implements the claimed
normalization (lower-case, then high→High, low→Low, anything else→Medium)
and never fails on a priority value. -/
theorem priority_normalization (p : Providers) (users : List User) (now : Nat)
    (lec : Lecture) (t : String) (tds : List TaskData) (bad : TaskData)
    (hstt : p.sttAvailable = true)
    (ht : p.transcribe lec.audioUrl = some t) (ht0 : t ≠ "")
    (hg : p.geminiAvailable = true)
    (hs : strTruthy (p.generateSummary t) = true)
    (htd : p.extractTasks t = some tds)
    (hbad : bad ∈ tds)
    (hbadpr : TaskPriority.ofString (bad.priority.getD "medium") = none)
    (hstud : studentsOf users ≠ []) :
    (processLecture p users now lec).1 = .raised ∧
    (∀ pi lecId td u, (mkTaskRowAi pi lecId td u).priority =
      (if (td.priority.getD "medium").toLower = "high" then .high
       else if (td.priority.getD "medium").toLower = "low" then .low
       else .medium)) ∧
    TaskPriority.ofString "high" = some .high ∧
    TaskPriority.ofString "medium" = some .medium ∧
    TaskPriority.ofString "low" = some .low := by
  have htr : transcriptOf p lec = t := by
    rw [transcriptOf, ht]
    rfl
  have httruthy : strTruthy (p.transcribe lec.audioUrl) = true := by
    rw [ht]
    exact strTruthy_some t ht0
  have hs2 : strTruthy (p.generateSummary (transcriptOf p lec)) = true := by
    rw [htr]
    exact hs
  have htds : tasksDataOf p lec = tds := by
    rw [tasksDataOf, htr, htd]
    rfl
  have hempty : tds.isEmpty = false := by
    simpa using List.ne_nil_of_mem hbad
  obtain ⟨s, hss⟩ := List.exists_mem_of_ne_nil _ hstud
  have hnone : (none : Option Task) ∈ fanoutPairs lec.id (studentsOf users) tds := by
    rw [mem_fanoutPairs]
    refine ⟨bad, hbad, s, hss, ?_⟩
    simp [mkTaskRow, hbadpr]
  have hseq := sequenceOpt_eq_none hnone
  refine ⟨?_, ?_, rfl, rfl, rfl⟩
  · simp [processLecture, hstt, httruthy, hg, hs2, htds, hempty, hseq]
  · intro pi lecId td u
    simp only [mkTaskRowAi]
    rcases h1 : (td.priority.getD "medium").toLower == "high" with hf | htt
    · rcases h2 : (td.priority.getD "medium").toLower == "low" with hf2 | ht2
      · simp [h1, h2, beq_eq_false_iff_ne.mp h1, beq_eq_false_iff_ne.mp h2]
      · simp [h1, h2, beq_eq_false_iff_ne.mp h1, beq_iff_eq.mp h2]
    · simp [h1, beq_iff_eq.mp h1]

/-- Closed instance of `priority_normalization`: the descriptor whose
priority is "urgent" aborts the whole background attempt, while the AI
route's mapping behaves as claimed. -/
theorem priority_normalization_witness :
    (processLecture badPriorityProviders [student1] 5 lec1).1 = .raised ∧
    (∀ pi lecId td u, (mkTaskRowAi pi lecId td u).priority =
      (if (td.priority.getD "medium").toLower = "high" then .high
       else if (td.priority.getD "medium").toLower = "low" then .low
       else .medium)) ∧
    TaskPriority.ofString "high" = some .high ∧
    TaskPriority.ofString "medium" = some .medium ∧
    TaskPriority.ofString "low" = some .low :=
  priority_normalization badPriorityProviders [student1] 5 lec1 "hello world"
    [⟨some "T", some "", some "urgent", none⟩] ⟨some "T", some "", some "urgent", none⟩
    (by decide) (by decide) (by decide) (by decide) (by decide) (by decide)
    (by decide) (by decide) (by decide)

/-- Counterexample to C4 as stated: the capitalized priority "High", which
the claimed lower-casing would map to High, instead makes the TaskPriority
constructor raise, aborting the whole background attempt with zero rows. -/
theorem capitalized_priority_aborts_attempt :
    (processLecture capsPriorityProviders st1.users 5 lec1).1 = .raised ∧
    (applyOutcome st1 (processLecture capsPriorityProviders st1.users 5 lec1).1).tasks = [] := by
  decide

/-- C10 (amended): only the AI route parses due dates — a present but
unparsable dueDate becomes NULL there and the row is still created, never a
fatal error; the background processor performs no parsing at all and stores
the descriptor's raw due-date value unchanged in the row (see the
counterexample for the resulting non-NULL raw value). -/
theorem due_date_handling :
    (∀ (pi : String → Option Nat) (lecId : String) (td : TaskData) (u : User) (ds : String),
      td.dueDate = some ds → ds ≠ "" → pi ds = none →
      (mkTaskRowAi pi lecId td u).dueDate = .null) ∧
    (∀ (lecId : String) (td : TaskData) (u : User) (r : Task) (ds : String),
      td.dueDate = some ds → mkTaskRow lecId td u = some r →
      r.dueDate = .raw ds) := by
  constructor
  · intro pi lecId td u ds hds hne hparse
    simp [mkTaskRowAi, hds, hne, hparse]
  · intro lecId td u r ds hds hrow
    simp only [mkTaskRow, Option.map_eq_some'] at hrow
    obtain ⟨pr, _, hr⟩ := hrow
    rw [← hr]
    simp [hds]

/-- Closed instance of `due_date_handling` at the unparsable string
"not-a-date": NULL in the AI route's row, the raw string in the background
row. -/
theorem due_date_handling_witness :
    (mkTaskRowAi okProviders.parseIso "L1"
      ⟨some "T", some "", some "high", some "not-a-date"⟩ student1).dueDate = .null ∧
    (⟨"T", "", "L1", "s1", .high, .raw "not-a-date", true⟩ : Task).dueDate =
      .raw "not-a-date" :=
  ⟨due_date_handling.1 okProviders.parseIso "L1"
      ⟨some "T", some "", some "high", some "not-a-date"⟩ student1 "not-a-date"
      (by decide) (by decide) (by decide),
   due_date_handling.2 "L1" ⟨some "T", some "", some "high", some "not-a-date"⟩ student1
      ⟨"T", "", "L1", "s1", .high, .raw "not-a-date", true⟩ "not-a-date"
      (by decide) (by decide)⟩

/-- Counterexample to C10 as stated: the background attempt with a descriptor
whose dueDate is the unparsable "not-a-date" commits a task whose persisted
due date is the raw string, not NULL. -/
theorem background_stores_raw_due_date :
    okProviders.parseIso "not-a-date" = none ∧
    (applyOutcome st1 (processLecture badDateProviders st1.users 5 lec1).1).tasks.map
      Task.dueDate = [DueDate.raw "not-a-date"] := by
  decide

/-- C9 (amended): a scheduler cycle's candidate query selects at most five
lectures, each with an audio reference and unprocessed, but returns them in
the store's own iteration order: the query has no order-by, so the selection
is not ordered by creation time (see the counterexample). -/
theorem scheduler_selection (lectures : List Lecture) :
    (selectUnprocessed lectures).length ≤ 5 ∧
    (∀ l ∈ selectUnprocessed lectures, l.audioUrl.isSome = true ∧ l.isProcessed = false) ∧
    (selectUnprocessed lectures).Sublist lectures := by
  refine ⟨?_, ?_, ?_⟩
  · rw [selectUnprocessed]
    exact List.length_take_le 5 _
  · intro l hl
    rw [selectUnprocessed] at hl
    have hmem := List.mem_filter.mp (List.mem_of_mem_take hl)
    have hp := hmem.2
    rw [Bool.and_eq_true] at hp
    exact ⟨hp.1, by simpa using hp.2⟩
  · rw [selectUnprocessed]
    exact (List.take_sublist _ _).trans (List.filter_sublist _)

/-- Counterexample to C9 as stated: with the newer lecture stored before the
older one, the selection keeps the storage order and is not sorted by
creation time. -/
theorem selection_not_ordered_by_creation :
    selectUnprocessed [lecNew, lecOld] = [lecNew, lecOld] ∧
    (selectUnprocessed [lecNew, lecOld]).map Lecture.createdAt = [10, 5] ∧
    ¬ (selectUnprocessed [lecNew, lecOld]).Pairwise
        (fun a b => a.createdAt ≤ b.createdAt) := by
  refine ⟨by decide, by decide, ?_⟩
  intro h
  rw [show selectUnprocessed [lecNew, lecOld] = [lecNew, lecOld] from by decide,
    List.pairwise_cons] at h
  exact absurd (h.1 lecOld (by simp)) (by decide)

/-- C8 (amended): the is-processed check makes strictly sequential double
invocation safe — if a first attempt's pipeline commits, a second attempt
whose check runs afterwards observes the processed lecture and performs no
pipeline execution (exactly one execution in total) — but the check-then-run
sequence is not atomic and the code has no single-flight gate: two attempts
whose checks both precede either commit execute the pipeline twice and insert
the fan-out rows twice (see the counterexample). -/
theorem sequential_attempts_single_execution (p : Providers) (now : Nat) (st : DBState)
    (lid : String) (lec lec2 : Lecture) (rows : List Task) (tr : List StageCall)
    (hfind : findLecture st lid = some lec) (hunproc : lec.isProcessed = false)
    (haudio : lec.audioUrl.isSome = true)
    (hrun : processLecture p st.users now lec = (.committed lec2 rows, tr)) :
    (raceSequential p now st lid).2 = 1 ∧
    (raceSequential p now st lid).1 = applyOutcome st (.committed lec2 rows) := by
  obtain ⟨a, haud⟩ := Option.isSome_iff_exists.mp haudio
  have hcheck1 : attemptCheck st lid = some lec := by
    unfold attemptCheck
    rw [hfind]
    simp [hunproc, haud]
  have hrun1 : attemptRun p now st lec = applyOutcome st (.committed lec2 rows) := by
    unfold attemptRun
    rw [hrun]
  obtain ⟨t, s, kp, _, _, hshape⟩ :=
    processLecture_committed_shape p st.users now lec lec2 rows tr hrun
  have hid : lec2.id = lec.id := by rw [hshape]; rfl
  have hproc2 : lec2.isProcessed = true := by rw [hshape]; rfl
  have hfind2 : findLecture (applyOutcome st (.committed lec2 rows)) lid = some lec2 :=
    find_after_commit st lid lec lec2 rows hfind hid
  have hcheck2 : attemptCheck (applyOutcome st (.committed lec2 rows)) lid = none := by
    unfold attemptCheck
    rw [hfind2]
    simp [hproc2]
  simp [raceSequential, hcheck1, hrun1, hcheck2]

/-- Closed instance of `sequential_attempts_single_execution` at the fixture
run in which every provider succeeds. -/
theorem sequential_attempts_single_execution_witness :
    (raceSequential okProviders 5 st1 "L1").2 = 1 ∧
    (raceSequential okProviders 5 st1 "L1").1 =
      applyOutcome st1 (.committed (committedLecture okProviders 5 lec1)
        [⟨"Read ch.1", "Read chapter one", "L1", "s1", .high, .null, true⟩]) :=
  sequential_attempts_single_execution okProviders 5 st1 "L1" lec1
    (committedLecture okProviders 5 lec1)
    [⟨"Read ch.1", "Read chapter one", "L1", "s1", .high, .null, true⟩] fullTrace
    (by decide) (by decide) (by decide) (by decide)

/-- Counterexample to C8 as stated: the interleaving in which both attempts
pass the is-processed check before either commit makes the stage pipeline
execute twice and the single fan-out task row is inserted twice, while the
sequential schedule of the same two attempts yields one execution and one
row — at-most-one in-flight attempt is not guaranteed. -/
theorem interleaved_attempts_execute_twice :
    (raceInterleaved okProviders 5 st1 "L1").2 = 2 ∧
    (raceInterleaved okProviders 5 st1 "L1").1.tasks.length = 2 ∧
    (raceSequential okProviders 5 st1 "L1").1.tasks.length = 1 := by
  decide

end ClassroomAssistant
